/-
  Verification of the binance-trading-bot repository.

  Shallow embedding of the Python sources in Lean 4.  Monetary amounts,
  prices and percentages are modelled as exact rationals (ℚ); Python's
  `round(x, n)` is modelled as round-half-to-even on the scaled rational.
  Stateful code (the gateway cache, the grid state machine) is modelled
  by explicit state passing; network calls are modelled by oracles
  (`Except`-valued parameters).
-/
import Mathlib

namespace TradingBot

/-! ## Decimal rounding (Python `round(x, n)`)

Python's built-in `round` rounds half to even.  `roundHalfEven q` is the
integer nearest to `q`, ties going to the even integer; `roundTo n x`
rounds `x` to `n` decimal places. -/

/-- Round a rational to the nearest integer, ties to even. -/
def roundHalfEven (q : ℚ) : ℤ :=
  let f : ℤ := ⌊q⌋
  let r : ℚ := q - f
  if r < 1/2 then f
  else if 1/2 < r then f + 1
  else if f % 2 = 0 then f else f + 1

/-- Python `round(x, n)`: round `x` to `n` decimal places, half to even. -/
def roundTo (n : ℕ) (x : ℚ) : ℚ :=
  (roundHalfEven (x * 10 ^ n) : ℚ) / 10 ^ n

/-! ## `src/config.py` -/

/-- `config.get_margin_percentage` (src/config.py): margin percentage from
leverage: ≤25x → 5%, ≤50x → 4%, ≤75x → 3%, ≤100x → 2%, else 1%. -/
def get_margin_percentage (leverage : ℕ) : ℚ :=
  if leverage ≤ 25 then 5
  else if leverage ≤ 50 then 4
  else if leverage ≤ 75 then 3
  else if leverage ≤ 100 then 2
  else 1

/-- Default `config.TAKE_PROFIT_PERCENT` (0.6%). -/
def TAKE_PROFIT_PERCENT : ℚ := 6/10

/-- Default `config.STOP_LOSS_PERCENT` (0.3%). -/
def STOP_LOSS_PERCENT : ℚ := 3/10

/-- `MIN_NOTIONAL_VALUE` used in `src/position_manager.py` (5 USDT). -/
def MIN_NOTIONAL_VALUE : ℚ := 5

/-! ## `src/binance_client.py`: precision rounding -/

/-- `BinanceClient.round_price`: round a price to the symbol's price
precision (number of decimal places). -/
def round_price (pricePrecision : ℕ) (price : ℚ) : ℚ :=
  roundTo pricePrecision price

/-- `BinanceClient.round_quantity`: round a quantity to the symbol's
quantity precision (number of decimal places). -/
def round_quantity (quantityPrecision : ℕ) (quantity : ℚ) : ℚ :=
  roundTo quantityPrecision quantity

/-! ## `src/position_manager.py`: position sizing

`calculate_position_size` depends on the account state only through the
total wallet balance and the current usage percentage, and on the config
through `MAX_ACCOUNT_USAGE` and `POSITION_SIZE_PERCENT`; these are passed
explicitly. -/

/-- The body of `PositionManager.calculate_position_size` up to (but not
including) the final `self.client.round_quantity` call: the value of the
local variable `quantity` on the return path, and `0` on each early-return
path. -/
def calculate_position_size_raw (maxAccountUsage positionSizePercent : ℚ)
    (totalBalance currentUsagePercent : ℚ) (price : ℚ) (leverage : ℕ) : ℚ :=
  if totalBalance ≤ 0 then 0
  else
    let availablePercent := max 0 (maxAccountUsage - currentUsagePercent)
    if availablePercent ≤ 0 then 0
    else
      let maxPositionPercent := min positionSizePercent availablePercent
      let positionSizeUsdt := totalBalance * (maxPositionPercent / 100)
      let marginPercentage := get_margin_percentage leverage
      let marginAmount := positionSizeUsdt * (marginPercentage / 100)
      let effectivePositionSize := marginAmount * leverage
      let quantity := effectivePositionSize / price
      let notionalValue := quantity * price
      if notionalValue < MIN_NOTIONAL_VALUE then
        let minQuantity := MIN_NOTIONAL_VALUE / price
        let minQuantityValue := minQuantity * price / leverage * (100 / marginPercentage)
        let minBalanceNeeded := minQuantityValue * 100 / maxPositionPercent
        if totalBalance < minBalanceNeeded then 0
        else minQuantity
      else quantity

/-- `PositionManager.calculate_position_size`: the raw quantity rounded to
the symbol's quantity precision. -/
def calculate_position_size (maxAccountUsage positionSizePercent : ℚ)
    (totalBalance currentUsagePercent : ℚ) (price : ℚ) (leverage : ℕ)
    (quantityPrecision : ℕ) : ℚ :=
  round_quantity quantityPrecision
    (calculate_position_size_raw maxAccountUsage positionSizePercent
      totalBalance currentUsagePercent price leverage)

/-- `PositionManager.calculate_take_profit_price` before the final
`round_price` call. -/
def calculate_take_profit_price_raw (takeProfitPercent : ℚ)
    (entryPrice : ℚ) (isLong : Bool) : ℚ :=
  if isLong then entryPrice * (1 + takeProfitPercent / 100)
  else entryPrice * (1 - takeProfitPercent / 100)

/-- `PositionManager.calculate_take_profit_price`. -/
def calculate_take_profit_price (takeProfitPercent : ℚ) (pricePrecision : ℕ)
    (entryPrice : ℚ) (isLong : Bool) : ℚ :=
  round_price pricePrecision (calculate_take_profit_price_raw takeProfitPercent entryPrice isLong)

/-- `PositionManager.calculate_stop_loss_price` before the final
`round_price` call. -/
def calculate_stop_loss_price_raw (stopLossPercent : ℚ)
    (entryPrice : ℚ) (isLong : Bool) : ℚ :=
  if isLong then entryPrice * (1 - stopLossPercent / 100)
  else entryPrice * (1 + stopLossPercent / 100)

/-- `PositionManager.calculate_stop_loss_price`. -/
def calculate_stop_loss_price (stopLossPercent : ℚ) (pricePrecision : ℕ)
    (entryPrice : ℚ) (isLong : Bool) : ℚ :=
  round_price pricePrecision (calculate_stop_loss_price_raw stopLossPercent entryPrice isLong)

/-! ## `src/binance_client.py`: rate-limit back-off (`_send_request`)

On an HTTP 429 response, `_send_request` computes the number of seconds to
sleep before the next attempt from the optional `Retry-After` header and
the 0-based attempt counter. -/

/-- The 429 back-off of `BinanceClient._send_request`: the `Retry-After`
header value when the server supplied one, otherwise `2 ^ attempt + 5`. -/
def rate_limit_wait (retryAfter : Option ℕ) (attempt : ℕ) : ℕ :=
  match retryAfter with
  | some w => w
  | none => 2 ^ attempt + 5

/-! ## `src/binance_client.py`: the response cache

`_store_in_cache` / `_get_from_cache` manage a dict from keys to
`{data, expiry}` entries; expired entries are evicted lazily on lookup.
The dict is modelled as an association list with unique keys maintained
by overwriting on store; the clock is an explicit `now` parameter. -/

/-- A cached payload together with its absolute expiry time. -/
structure CacheEntry (α : Type) where
  data : α
  expiry : ℚ
  deriving DecidableEq

/-- The gateway cache: a key-indexed store of `CacheEntry` values. -/
def Cache (α : Type) : Type := List (ℕ × CacheEntry α)

/-- `BinanceClient._store_in_cache`: store `d` under `key` with expiry
`now + ttlSeconds`, overwriting any previous entry for `key`. -/
def store_in_cache {α : Type} (now : ℚ) (key : ℕ) (d : α) (ttlSeconds : ℚ)
    (c : Cache α) : Cache α :=
  (key, ⟨d, now + ttlSeconds⟩) :: List.filter (fun e => !(e.1 == key)) c

/-- `BinanceClient._get_from_cache`: return the data stored under `key` if
present and unexpired; an expired entry is deleted and the lookup misses.
The result pairs the optional payload with the cache after the lookup. -/
def get_from_cache {α : Type} (now : ℚ) (key : ℕ) (c : Cache α) :
    Option α × Cache α :=
  match List.find? (fun e => e.1 == key) c with
  | none => (none, c)
  | some e =>
    if now < e.2.expiry then (some e.2.data, c)
    else (none, List.filter (fun e => !(e.1 == key)) c)

/-! ## `src/grid_trading.py`: the grid state machine

`GridTradingBot.check_order_executions` walks the recent trades and, for
each trade matching the active buy or sell order, updates the mutable
state (`last_buy_price`, the two grid indices, the active order ids).
`process_trade` is the body of that loop for a single trade; the coin
balance remaining after a sell fill is an explicit oracle input. -/

/-- One entry of the recent-trades response: order id, price, quantity. -/
structure Trade where
  orderId : ℕ
  price : ℚ
  qty : ℚ
  deriving DecidableEq

/-- The mutable state of `GridTradingBot`. -/
structure GridState where
  lastBuyPrice : Option ℚ
  currentGridBuyIndex : ℕ
  currentGridSellIndex : ℕ
  activeBuyOrderId : Option ℕ
  activeSellOrderId : Option ℕ
  deriving DecidableEq

/-- One iteration of the trade loop in
`GridTradingBot.check_order_executions`: `numBuyGrids` and `numSellGrids`
are the lengths of `GRID_BUY_TRIGGER_PERCENTAGES` and
`GRID_SELL_TRIGGER_PERCENTAGES`, `buyQuantitiesUsdt` is
`GRID_BUY_QUANTITIES_USDT`, and `remainingBalance` is the coin balance
reported after a sell execution. -/
def process_trade (buyQuantitiesUsdt : List ℚ) (numBuyGrids numSellGrids : ℕ)
    (remainingBalance : ℚ) (trade : Trade) (s : GridState) : GridState :=
  if s.activeBuyOrderId = some trade.orderId then
    let lastBuy :=
      match s.lastBuyPrice with
      | none => trade.price
      | some lbp =>
          let previousValue := buyQuantitiesUsdt.getD (s.currentGridBuyIndex - 1) 0
          let currentValue := buyQuantitiesUsdt.getD s.currentGridBuyIndex 0
          (previousValue + currentValue) / (previousValue / lbp + currentValue / trade.price)
    { s with lastBuyPrice := some lastBuy,
             activeBuyOrderId := none,
             currentGridBuyIndex := min (s.currentGridBuyIndex + 1) (numBuyGrids - 1) }
  else if s.activeSellOrderId = some trade.orderId then
    let s' := { s with activeSellOrderId := none,
                       currentGridSellIndex := min (s.currentGridSellIndex + 1) (numSellGrids - 1) }
    if remainingBalance ≤ 1/10000 then
      { s' with lastBuyPrice := none, currentGridSellIndex := 0 }
    else s'
  else s

/-! ## `src/binance_client.py`: `set_leverage`

`set_leverage` caps the requested leverage at the symbol's maximum, sends
the change request, and on an exception whose message contains
"is not valid" (with capped leverage still above 1) recursively retries at
`max(1, leverage // 2)`; any other exception is re-raised.  The network is
an oracle mapping each requested leverage to an outcome; the model returns
the list of leverages actually requested together with the final
outcome. -/

/-- Outcome of one `POST /fapi/v1/leverage` request: a successful response
or the message of the raised exception. -/
inductive ApiOutcome (ρ : Type) where
  | ok (response : ρ)
  | err (msg : String)
  deriving DecidableEq

/-- The Python test `"is not valid" in str(e)`. -/
def contains_is_not_valid (msg : String) : Bool :=
  decide ("is not valid".data <:+: msg.data)

/-- `BinanceClient.set_leverage` over the request oracle `api`, with the
symbol's maximum leverage `maxLeverage`.  Returns the requested leverages
in order, paired with the final outcome. -/
def set_leverage {ρ : Type} (api : ℕ → ApiOutcome ρ) (maxLeverage : ℕ)
    (leverage : ℕ) : List ℕ × ApiOutcome ρ :=
  match api (min leverage maxLeverage) with
  | ApiOutcome.ok r => ([min leverage maxLeverage], ApiOutcome.ok r)
  | ApiOutcome.err e =>
    if h : contains_is_not_valid e = true ∧ 1 < min leverage maxLeverage then
      let rest := set_leverage api maxLeverage (max 1 (min leverage maxLeverage / 2))
      (min leverage maxLeverage :: rest.1, rest.2)
    else ([min leverage maxLeverage], ApiOutcome.err e)
termination_by leverage
decreasing_by omega

/-- A request oracle on which leverages above 2 fail with the
invalid-leverage message and leverages up to 2 succeed. -/
def leverage_oracle_example : ℕ → ApiOutcome ℕ :=
  fun lev => if lev ≤ 2 then ApiOutcome.ok lev else ApiOutcome.err "leverage is not valid"

/-- A request oracle that always fails with an unrelated business error. -/
def leverage_oracle_other_error : ℕ → ApiOutcome ℕ :=
  fun _ => ApiOutcome.err "Margin is insufficient"

/-! ## `src/binance_client.py`: `get_daily_pnl`

`get_daily_pnl` folds the day's income history into a summary, then
computes `pnl_percentage` from the total PnL and the starting balance,
capping values above 1000% to 100% and zeroing the result when the total
PnL is suspiciously large with no realized trades. -/

/-- One record of the income-history response. -/
structure IncomeRecord where
  incomeType : String
  income : ℚ
  deriving DecidableEq

/-- `DEPOSIT_INCOME_TYPES` in `get_daily_pnl`: income types skipped as
deposit-related. -/
def DEPOSIT_INCOME_TYPES : List String :=
  ["TRANSFER", "INTERNAL_TRANSFER", "CROSS_COLLATERAL_TRANSFER", "WELCOME_BONUS",
   "DEPOSIT", "WITHDRAW", "COIN_SWAP_DEPOSIT", "COIN_SWAP_WITHDRAW",
   "AUTO_EXCHANGE", "DELIVERED_SETTLEMENT", "STRATEGY_TRANSFER"]

/-- The accumulating totals of `get_daily_pnl`'s record loop. -/
structure PnlSummary where
  total_pnl : ℚ
  realized_pnl : ℚ
  funding_fee : ℚ
  commission : ℚ
  other : ℚ
  trades_count : ℕ
  winning_trades : ℕ
  losing_trades : ℕ
  deriving DecidableEq

/-- The initial `pnl_summary` of `get_daily_pnl` (all totals zero). -/
def initPnlSummary : PnlSummary := ⟨0, 0, 0, 0, 0, 0, 0, 0⟩

/-- One iteration of the income-record loop in `get_daily_pnl`: skip
deposit-related types, skip amounts larger than half the wallet balance,
otherwise accumulate the total and the per-type categories. -/
def process_income_record (totalWalletBalance : ℚ) (s : PnlSummary)
    (r : IncomeRecord) : PnlSummary :=
  if DEPOSIT_INCOME_TYPES.contains r.incomeType then s
  else if totalWalletBalance * (1/2) < |r.income| then s
  else
    let s := { s with total_pnl := s.total_pnl + r.income }
    if r.incomeType = "REALIZED_PNL" then
      { s with realized_pnl := s.realized_pnl + r.income,
               trades_count := s.trades_count + 1,
               winning_trades := if 0 < r.income then s.winning_trades + 1 else s.winning_trades,
               losing_trades := if r.income < 0 then s.losing_trades + 1 else s.losing_trades }
    else if r.incomeType = "FUNDING_FEE" then
      { s with funding_fee := s.funding_fee + r.income }
    else if r.incomeType = "COMMISSION" then
      { s with commission := s.commission + r.income }
    else
      { s with other := s.other + r.income }

/-- The record loop of `get_daily_pnl` over the whole income history. -/
def process_income (totalWalletBalance : ℚ) (records : List IncomeRecord) :
    PnlSummary :=
  records.foldl (process_income_record totalWalletBalance) initPnlSummary

/-- The PnL percentage computed in `get_daily_pnl` *before* the two sanity
checks: total PnL over the starting balance (falling back to the current
balance when current − total ≤ 0), times 100. -/
def daily_pnl_raw_percentage (totalWalletBalance : ℚ)
    (records : List IncomeRecord) : ℚ :=
  let s := process_income totalWalletBalance records
  let starting :=
    if totalWalletBalance - s.total_pnl ≤ 0 then totalWalletBalance
    else totalWalletBalance - s.total_pnl
  s.total_pnl / starting * 100

/-- The `pnl_percentage` field of the summary returned by `get_daily_pnl`:
the raw percentage, capped to 100 when above 1000, then zeroed when the
total PnL exceeds half the balance with no realized trades counted; 0 when
the balance is not positive. -/
def get_daily_pnl_percentage (totalWalletBalance : ℚ)
    (records : List IncomeRecord) : ℚ :=
  if 0 < totalWalletBalance then
    let s := process_income totalWalletBalance records
    let pct := daily_pnl_raw_percentage totalWalletBalance records
    let pct := if 1000 < pct then 100 else pct
    if totalWalletBalance * (1/2) < |s.total_pnl| ∧ s.trades_count = 0 then 0 else pct
  else 0

/-! ## `src/binance_client.py`: `get_open_positions`

`get_open_positions` fetches the account snapshot, returns `[]` when the
fetch raises or the payload has no `positions` field, filters the
positions by symbol and non-zero amount, and annotates each with a mark
price (falling back to the entry price when the price fetch fails).
`PositionManager.get_total_position_value` sums |amount| × entry over the
result. -/

/-- One position entry of the account snapshot. -/
structure RawPosition where
  symbol : String
  positionAmt : ℚ
  entryPrice : ℚ
  deriving DecidableEq

/-- A position as returned by `get_open_positions`, with the added
`markPrice` field. -/
structure OpenPosition where
  symbol : String
  positionAmt : ℚ
  entryPrice : ℚ
  markPrice : ℚ
  deriving DecidableEq

/-- The account snapshot: wallet balance and the optional `positions`
field. -/
structure AccountInfo where
  totalWalletBalance : ℚ
  positions : Option (List RawPosition)
  deriving DecidableEq

/-- `BinanceClient.get_open_positions` over the snapshot-fetch outcome and
a price oracle. -/
def get_open_positions (fetchAccount : Except String AccountInfo)
    (priceOf : String → Except String ℚ) (symbolFilter : Option String) :
    List OpenPosition :=
  match fetchAccount with
  | Except.error _ => []
  | Except.ok info =>
    match info.positions with
    | none => []
    | some ps =>
      let filtered : List RawPosition :=
        match symbolFilter with
        | some sym => ps.filter (fun (p : RawPosition) => p.symbol == sym)
        | none => ps
      let nonZero : List RawPosition :=
        filtered.filter (fun (p : RawPosition) => decide (0 < |p.positionAmt|))
      nonZero.map (fun (p : RawPosition) =>
        { symbol := p.symbol, positionAmt := p.positionAmt, entryPrice := p.entryPrice,
          markPrice := match priceOf p.symbol with
            | Except.ok mp => mp
            | Except.error _ => p.entryPrice })

/-- `PositionManager.get_total_position_value`: sum of |amount| × entry
over the open positions. -/
def get_total_position_value (fetchAccount : Except String AccountInfo)
    (priceOf : String → Except String ℚ) : ℚ :=
  ((get_open_positions fetchAccount priceOf none).map
    (fun p => |p.positionAmt| * p.entryPrice)).sum

/-! ## Basic rounding lemmas -/

theorem roundTo_zero (n : ℕ) : roundTo n 0 = 0 := by
  simp [roundTo, roundHalfEven]

/-! ## Claims C1–C4: position sizing and TP/SL prices -/

/-- C1 (counterexample): with default config (MAX_ACCOUNT_USAGE 60,
POSITION_SIZE_PERCENT 5), balance 201, no usage, price 612, leverage 10 and
quantity precision 3, `calculate_position_size` returns 0.008, which is
neither 0 nor a quantity whose notional 0.008 × 612 = 4.896 reaches the
5-USDT floor: the final precision rounding breaks the invariant. -/
theorem C1_counterexample :
    calculate_position_size 60 5 201 0 612 10 3 ≠ 0 ∧
    calculate_position_size 60 5 201 0 612 10 3 * 612 < MIN_NOTIONAL_VALUE := by
  norm_num [calculate_position_size, calculate_position_size_raw, round_quantity,
    roundTo, roundHalfEven, get_margin_percentage, MIN_NOTIONAL_VALUE]

/-- C1 (amended): for every positive price, every leverage and every account
state, the quantity computed by `calculate_position_size` *before* the final
precision rounding satisfies quantity × price ≥ MIN_NOTIONAL (5), or the
function returns exactly 0. -/
theorem C1_min_notional_before_rounding (maxU psz balance usage price : ℚ)
    (lev : ℕ) (hp : 0 < price) :
    calculate_position_size_raw maxU psz balance usage price lev = 0 ∨
    MIN_NOTIONAL_VALUE ≤ calculate_position_size_raw maxU psz balance usage price lev * price := by
  simp only [calculate_position_size_raw]
  split_ifs with h1 h2 h3 h4
  · exact Or.inl rfl
  · exact Or.inl rfl
  · exact Or.inl (zero_mul price ▸ rfl)
  · right
    rw [div_mul_cancel₀ _ hp.ne']
  · right
    push_neg at h3
    exact h3

/-- C1 (witness): the amended theorem applied at the scenario balance 10000,
usage 0, price 50000, leverage 10. -/
theorem C1_min_notional_before_rounding_witness :
    (0 : ℚ) < 50000 ∧
    (calculate_position_size_raw 60 5 10000 0 50000 10 = 0 ∨
     MIN_NOTIONAL_VALUE ≤ calculate_position_size_raw 60 5 10000 0 50000 10 * 50000) :=
  ⟨by norm_num, C1_min_notional_before_rounding 60 5 10000 0 50000 10 (by norm_num)⟩

/-- C2: whenever the current account-usage percentage is at or above
MAX_ACCOUNT_USAGE, `calculate_position_size` returns exactly 0, regardless
of price, leverage, balance and the other config values. -/
theorem C2_usage_cap_returns_zero (maxU psz balance usage price : ℚ)
    (lev prec : ℕ) (h : maxU ≤ usage) :
    calculate_position_size maxU psz balance usage price lev prec = 0 := by
  have hmax : max 0 (maxU - usage) ≤ 0 := by
    simp only [max_le_iff, le_refl, true_and]
    linarith
  have hraw : calculate_position_size_raw maxU psz balance usage price lev = 0 := by
    simp only [calculate_position_size_raw]
    split_ifs <;> rfl
  unfold calculate_position_size round_quantity
  rw [hraw]
  exact roundTo_zero prec

/-- C2 (witness): usage already 60% with MAX_ACCOUNT_USAGE = 60 gives
position size 0 at balance 10000, price 50000, leverage 10. -/
theorem C2_usage_cap_returns_zero_witness :
    (60 : ℚ) ≤ 60 ∧ calculate_position_size 60 5 10000 60 50000 10 3 = 0 :=
  ⟨le_refl 60, C2_usage_cap_returns_zero 60 5 10000 60 50000 10 3 (le_refl 60)⟩

/-- C3: with balance 10000, zero usage, size percent 5, leverage 10 (margin
percent 5 by the step function) and price 50000, the quantity before
precision rounding is (10000 × 0.05 × 0.05 × 10)/50000 = 0.005. -/
theorem C3_example_quantity :
    calculate_position_size_raw 60 5 10000 0 50000 10 = 1/200 := by
  norm_num [calculate_position_size_raw, get_margin_percentage, MIN_NOTIONAL_VALUE]

/-- C4 (counterexample): with the configured percentages (TP 0.6%, SL 0.3%)
and price precision 2, a LONG entry at 0.01 gets take-profit and stop-loss
prices both rounded back to 0.01, so `takeProfit > entry > stopLoss` fails
after rounding. -/
theorem C4_counterexample :
    calculate_take_profit_price TAKE_PROFIT_PERCENT 2 (1/100) true = 1/100 ∧
    calculate_stop_loss_price STOP_LOSS_PERCENT 2 (1/100) true = 1/100 ∧
    ¬(1/100 < calculate_take_profit_price TAKE_PROFIT_PERCENT 2 (1/100) true ∧
      calculate_stop_loss_price STOP_LOSS_PERCENT 2 (1/100) true < 1/100) := by
  norm_num [calculate_take_profit_price, calculate_stop_loss_price,
    calculate_take_profit_price_raw, calculate_stop_loss_price_raw,
    round_price, roundTo, roundHalfEven, TAKE_PROFIT_PERCENT, STOP_LOSS_PERCENT]

/-- C4 (amended): for every entry price > 0 and positive TP/SL percentages,
the prices *before* rounding to symbol precision satisfy
takeProfit > entry > stopLoss for LONG and stopLoss > entry > takeProfit
for SHORT; the precision rounding can break the strict ordering. -/
theorem C4_order_before_rounding (tpPct slPct entry : ℚ)
    (htp : 0 < tpPct) (hsl : 0 < slPct) (he : 0 < entry) :
    (entry < calculate_take_profit_price_raw tpPct entry true ∧
     calculate_stop_loss_price_raw slPct entry true < entry) ∧
    (entry < calculate_stop_loss_price_raw slPct entry false ∧
     calculate_take_profit_price_raw tpPct entry false < entry) := by
  simp only [calculate_take_profit_price_raw, calculate_stop_loss_price_raw,
    Bool.false_eq_true, if_true, if_false]
  refine ⟨⟨?_, ?_⟩, ?_, ?_⟩ <;> nlinarith

/-- C5 (counterexample): on a 429 with `Retry-After: 1` at attempt 0 the
code waits exactly 1 second, not max(1, 2^0 + 5) = 6 seconds as the claim
states: a server-supplied `Retry-After` is used as-is, it is not combined
with the exponential back-off by `max`. -/
theorem C5_counterexample :
    rate_limit_wait (some 1) 0 = 1 ∧
    rate_limit_wait (some 1) 0 ≠ max 1 (2 ^ 0 + 5) := by
  decide

/-- C5 (amended): on HTTP 429 the gateway waits the server-supplied
`Retry-After` when the header is present, and `2 ^ attempt + 5` seconds
otherwise; in particular two consecutive 429s with no header on attempts 0
and 1 wait 6 then 7 seconds. -/
theorem C5_rate_limit_wait :
    (∀ w k, rate_limit_wait (some w) k = w) ∧
    (∀ k, rate_limit_wait none k = 2 ^ k + 5) ∧
    rate_limit_wait none 0 = 6 ∧ rate_limit_wait none 1 = 7 :=
  ⟨fun _ _ => rfl, fun _ => rfl, rfl, rfl⟩

/-- C6: storing a payload under a key with time-to-live `ttl` at time `t0`,
a lookup at time `t1` with `t1 - t0 < ttl` hits and returns the original
payload with the cache unchanged, while a lookup with `t1 - t0 > ttl`
misses and evicts the entry. -/
theorem C6_cache_ttl_roundtrip {α : Type} (c : Cache α) (key : ℕ) (d : α)
    (ttl t0 t1 : ℚ) :
    (t1 - t0 < ttl →
      get_from_cache t1 key (store_in_cache t0 key d ttl c) =
        (some d, store_in_cache t0 key d ttl c)) ∧
    (ttl < t1 - t0 →
      get_from_cache t1 key (store_in_cache t0 key d ttl c) =
        (none, List.filter (fun e => !(e.1 == key)) c)) := by
  have hfind : List.find? (fun e => e.1 == key) (store_in_cache t0 key d ttl c)
      = some (key, ⟨d, t0 + ttl⟩) := by
    simp [store_in_cache, List.find?]
  constructor
  · intro h
    simp only [get_from_cache, hfind]
    rw [if_pos (by linarith)]
  · intro h
    simp only [get_from_cache, hfind]
    rw [if_neg (by push_neg; linarith)]
    simp [store_in_cache, List.filter_filter]

/-- C6 (witness): payload 42 stored at time 0 with ttl 5: a lookup at time 3
hits with 42 and leaves the cache unchanged, a lookup at time 10 misses and
leaves the cache empty. -/
theorem C6_cache_ttl_roundtrip_witness :
    (get_from_cache 3 0 (store_in_cache 0 0 (42 : ℕ) 5 []) =
      (some 42, store_in_cache 0 0 (42 : ℕ) 5 [])) ∧
    (get_from_cache 10 0 (store_in_cache 0 0 (42 : ℕ) 5 []) =
      (none, List.filter (fun e => !(e.1 == 0)) ([] : Cache ℕ))) :=
  ⟨(C6_cache_ttl_roundtrip [] 0 42 5 0 3).1 (by norm_num),
   (C6_cache_ttl_roundtrip [] 0 42 5 0 10).2 (by norm_num)⟩

/-- C4 (witness): the amended theorem at the configured percentages
(TP 0.6%, SL 0.3%) and entry price 100. -/
theorem C4_order_before_rounding_witness :
    ((0 : ℚ) < TAKE_PROFIT_PERCENT ∧ (0 : ℚ) < STOP_LOSS_PERCENT ∧ (0 : ℚ) < 100) ∧
    ((100 < calculate_take_profit_price_raw TAKE_PROFIT_PERCENT 100 true ∧
      calculate_stop_loss_price_raw STOP_LOSS_PERCENT 100 true < 100) ∧
     (100 < calculate_stop_loss_price_raw STOP_LOSS_PERCENT 100 false ∧
      calculate_take_profit_price_raw TAKE_PROFIT_PERCENT 100 false < 100)) :=
  ⟨⟨by norm_num [TAKE_PROFIT_PERCENT], by norm_num [STOP_LOSS_PERCENT], by norm_num⟩,
   C4_order_before_rounding TAKE_PROFIT_PERCENT STOP_LOSS_PERCENT 100
     (by norm_num [TAKE_PROFIT_PERCENT]) (by norm_num [STOP_LOSS_PERCENT]) (by norm_num)⟩

/-- C7: across one step of the grid state machine (with the grid indices
within their configured bounds), the buy-grid index never decreases, and
the sell-grid index never decreases except for the full-liquidation reset
to 0, which also clears `lastBuyPrice`. -/
theorem C7_grid_index_monotone (qs : List ℚ) (nBuy nSell : ℕ) (bal : ℚ)
    (tr : Trade) (s : GridState)
    (hb : s.currentGridBuyIndex < nBuy) (hs : s.currentGridSellIndex < nSell) :
    s.currentGridBuyIndex ≤ (process_trade qs nBuy nSell bal tr s).currentGridBuyIndex ∧
    (s.currentGridSellIndex ≤ (process_trade qs nBuy nSell bal tr s).currentGridSellIndex ∨
      (bal ≤ 1/10000 ∧ (process_trade qs nBuy nSell bal tr s).currentGridSellIndex = 0 ∧
        (process_trade qs nBuy nSell bal tr s).lastBuyPrice = none)) := by
  simp only [process_trade]
  split_ifs with h1 h2 h3
  · exact ⟨by simp; omega, Or.inl (by simp)⟩
  · exact ⟨by simp, Or.inr ⟨h3, by simp, by simp⟩⟩
  · exact ⟨by simp, Or.inl (by simp; omega)⟩
  · exact ⟨le_refl _, Or.inl (le_refl _)⟩

/-- C7 (witness): a sell fill that liquidates the remaining balance, from
buy index 1 and sell index 0 on a two-level grid. -/
theorem C7_grid_index_monotone_witness :
    let s : GridState := ⟨some 100, 1, 0, none, some 7⟩
    let s' := process_trade [50, 100] 2 2 0 ⟨7, 105, 1⟩ s
    s.currentGridBuyIndex ≤ s'.currentGridBuyIndex ∧
    (s.currentGridSellIndex ≤ s'.currentGridSellIndex ∨
      ((0:ℚ) ≤ 1/10000 ∧ s'.currentGridSellIndex = 0 ∧ s'.lastBuyPrice = none)) :=
  C7_grid_index_monotone [50, 100] 2 2 0 ⟨7, 105, 1⟩ ⟨some 100, 1, 0, none, some 7⟩
    (by norm_num) (by norm_num)

/-- The first leverage requested by `set_leverage` is the capped one. -/
theorem set_leverage_trace_head {ρ : Type} (api : ℕ → ApiOutcome ρ)
    (maxLev lev : ℕ) :
    (set_leverage api maxLev lev).1.head? = some (min lev maxLev) := by
  conv_lhs => rw [set_leverage]
  cases h : api (min lev maxLev) with
  | ok r => rfl
  | err e =>
    dsimp only
    by_cases hc : contains_is_not_valid e = true ∧ 1 < min lev maxLev
    · rw [dif_pos hc]
      rfl
    · rw [dif_neg hc]
      rfl

/-- C8 (counterexample): against an oracle for which leverages above 2 fail
with "is not valid" and leverage 2 succeeds, `set_leverage` at requested
leverage 8 issues three requests (8, then 4, then 2), so it does not retry
only once after the first invalid-leverage failure. -/
theorem C8_counterexample :
    (set_leverage leverage_oracle_example 20 8).1 = [8, 4, 2] ∧
    (set_leverage leverage_oracle_example 20 8).1.length ≠ 2 := by
  rw [set_leverage, set_leverage, set_leverage]
  norm_num [leverage_oracle_example]
  decide

/-- C8 (amended): when the request at the capped leverage fails with a
business error containing "is not valid" and the capped leverage exceeds 1,
`set_leverage` halves the leverage to max(1, leverage // 2) and retries,
recursively (so more than one retry can occur while the error persists);
when the error does not match the pattern, or the capped leverage is
already 1, the error is re-raised to the caller with no further request. -/
theorem C8_set_leverage_halving_retry {ρ : Type} (api : ℕ → ApiOutcome ρ)
    (maxLev lev : ℕ) :
    (∀ e, api (min lev maxLev) = ApiOutcome.err e →
      contains_is_not_valid e = true → 1 < min lev maxLev →
      (set_leverage api maxLev lev).1.take 2 =
        [min lev maxLev, max 1 (min lev maxLev / 2)] ∧
      (set_leverage api maxLev lev).2 =
        (set_leverage api maxLev (max 1 (min lev maxLev / 2))).2) ∧
    (∀ e, api (min lev maxLev) = ApiOutcome.err e →
      ¬(contains_is_not_valid e = true ∧ 1 < min lev maxLev) →
      set_leverage api maxLev lev = ([min lev maxLev], ApiOutcome.err e)) := by
  constructor
  · intro e he hc hl
    have hmain : set_leverage api maxLev lev =
        (min lev maxLev :: (set_leverage api maxLev (max 1 (min lev maxLev / 2))).1,
         (set_leverage api maxLev (max 1 (min lev maxLev / 2))).2) := by
      conv_lhs => rw [set_leverage]
      rw [he]
      dsimp only
      rw [dif_pos ⟨hc, hl⟩]
    have hcap : min (max 1 (min lev maxLev / 2)) maxLev = max 1 (min lev maxLev / 2) := by
      omega
    have hhead := set_leverage_trace_head api maxLev (max 1 (min lev maxLev / 2))
    rw [hcap] at hhead
    constructor
    · rw [hmain]
      cases h2 : (set_leverage api maxLev (max 1 (min lev maxLev / 2))).1 with
      | nil => rw [h2] at hhead; simp at hhead
      | cons x t =>
        rw [h2] at hhead
        simp only [List.head?_cons, Option.some_inj] at hhead
        simp [hhead]
    · rw [hmain]
  · intro e he hnc
    conv_lhs => rw [set_leverage]
    rw [he]
    dsimp only
    rw [dif_neg hnc]

/-- C8 (witness): the amended theorem applied to both oracles at requested
leverage 8 with maximum 20: the invalid-leverage failure leads to a retry
at 4, and the unrelated business error is re-raised after one request. -/
theorem C8_set_leverage_halving_retry_witness :
    ((set_leverage leverage_oracle_example 20 8).1.take 2 =
       [min 8 20, max 1 (min 8 20 / 2)] ∧
     (set_leverage leverage_oracle_example 20 8).2 =
       (set_leverage leverage_oracle_example 20 (max 1 (min 8 20 / 2))).2) ∧
    set_leverage leverage_oracle_other_error 20 8 =
      ([min 8 20], ApiOutcome.err "Margin is insufficient") :=
  ⟨(C8_set_leverage_halving_retry leverage_oracle_example 20 8).1
     "leverage is not valid" rfl (by decide) (by decide),
   (C8_set_leverage_halving_retry leverage_oracle_other_error 20 8).2
     "Margin is insufficient" rfl (by decide)⟩

/-- C9 (counterexample): with balance 2 and two funding-fee records of 0.95
each, the computed daily PnL percentage is 1900 (> 1000), yet
`get_daily_pnl` returns `pnl_percentage` 0, not 100: the later
deposit-suspicion check (|total| > balance/2 with zero trades) overrides
the 100 cap. -/
theorem C9_counterexample :
    daily_pnl_raw_percentage 2 [⟨"FUNDING_FEE", 19/20⟩, ⟨"FUNDING_FEE", 19/20⟩] = 1900 ∧
    (1000 : ℚ) < 1900 ∧
    get_daily_pnl_percentage 2 [⟨"FUNDING_FEE", 19/20⟩, ⟨"FUNDING_FEE", 19/20⟩] = 0 := by
  have habs : |(19/20 : ℚ)| = 19/20 := abs_of_pos (by norm_num)
  have hfold : process_income 2 [⟨"FUNDING_FEE", 19/20⟩, ⟨"FUNDING_FEE", 19/20⟩] =
      ⟨19/10, 0, 19/10, 0, 0, 0, 0, 0⟩ := by
    norm_num +decide [process_income, process_income_record, initPnlSummary,
      DEPOSIT_INCOME_TYPES, habs]
  have habs2 : |(19/10 : ℚ)| = 19/10 := abs_of_pos (by norm_num)
  have hraw : daily_pnl_raw_percentage 2 [⟨"FUNDING_FEE", 19/20⟩, ⟨"FUNDING_FEE", 19/20⟩]
      = 1900 := by
    norm_num [daily_pnl_raw_percentage, hfold]
  refine ⟨hraw, by norm_num, ?_⟩
  norm_num [get_daily_pnl_percentage, hfold, hraw, habs2]

/-- C9 (amended): whenever the balance is positive and the computed daily
PnL percentage exceeds 1000, `get_daily_pnl` returns `pnl_percentage` 100
— except that when |total PnL| > balance/2 with zero realized trades the
subsequent deposit-suspicion check collapses it to 0 instead. -/
theorem C9_cap_collapses_to_100 (bal : ℚ) (records : List IncomeRecord)
    (hb : 0 < bal) (hr : 1000 < daily_pnl_raw_percentage bal records) :
    get_daily_pnl_percentage bal records =
      if bal * (1/2) < |(process_income bal records).total_pnl| ∧
         (process_income bal records).trades_count = 0 then 0 else 100 := by
  simp only [get_daily_pnl_percentage]
  rw [if_pos hb]
  split_ifs with h1 <;> rfl

/-- C9 (witness): with balance 2 and two realized-PnL records of 0.95, the
raw percentage 1900 exceeds 1000 and, the trade count being 2, the returned
percentage is the 100 cap. -/
theorem C9_cap_collapses_to_100_witness :
    (0:ℚ) < 2 ∧
    (1000:ℚ) < daily_pnl_raw_percentage 2 [⟨"REALIZED_PNL", 19/20⟩, ⟨"REALIZED_PNL", 19/20⟩] ∧
    get_daily_pnl_percentage 2 [⟨"REALIZED_PNL", 19/20⟩, ⟨"REALIZED_PNL", 19/20⟩] =
      if (2:ℚ) * (1/2) <
           |(process_income 2 [⟨"REALIZED_PNL", 19/20⟩, ⟨"REALIZED_PNL", 19/20⟩]).total_pnl| ∧
         (process_income 2 [⟨"REALIZED_PNL", 19/20⟩, ⟨"REALIZED_PNL", 19/20⟩]).trades_count = 0
      then 0 else 100 := by
  have habs : |(19/20 : ℚ)| = 19/20 := abs_of_pos (by norm_num)
  have hfold : process_income 2 [⟨"REALIZED_PNL", 19/20⟩, ⟨"REALIZED_PNL", 19/20⟩] =
      ⟨19/10, 19/10, 0, 0, 0, 2, 2, 0⟩ := by
    norm_num +decide [process_income, process_income_record, initPnlSummary,
      DEPOSIT_INCOME_TYPES, habs]
  have hraw : (1000:ℚ) <
      daily_pnl_raw_percentage 2 [⟨"REALIZED_PNL", 19/20⟩, ⟨"REALIZED_PNL", 19/20⟩] := by
    norm_num [daily_pnl_raw_percentage, hfold]
  exact ⟨by norm_num, hraw, C9_cap_collapses_to_100 2 _ (by norm_num) hraw⟩

/-- C10: when the account-snapshot fetch fails, or the payload has no
`positions` field, `get_open_positions` returns `[]` — the same value it
returns for a healthy account with no positions, so the caller cannot
distinguish the two — and the total position value (hence the account
usage derived from it) computed from the failed fetch is 0. -/
theorem C10_failure_returns_empty (fetch : Except String AccountInfo)
    (priceOf : String → Except String ℚ) (symf : Option String)
    (h : (∃ e, fetch = Except.error e) ∨
         (∃ a, fetch = Except.ok a ∧ a.positions = none)) :
    get_open_positions fetch priceOf symf = [] ∧
    get_total_position_value fetch priceOf = 0 ∧
    ∀ bal, get_open_positions fetch priceOf symf =
      get_open_positions (Except.ok ⟨bal, some []⟩) priceOf symf := by
  have hempty : ∀ sf, get_open_positions fetch priceOf sf = [] := by
    intro sf
    rcases h with ⟨e, rfl⟩ | ⟨a, rfl, hp⟩
    · rfl
    · simp [get_open_positions, hp]
  have hhealthy : ∀ bal sf, get_open_positions (Except.ok ⟨bal, some []⟩) priceOf sf = [] := by
    intro bal sf
    cases sf <;> simp [get_open_positions]
  refine ⟨hempty symf, ?_, fun bal => by rw [hempty symf, hhealthy bal symf]⟩
  rw [get_total_position_value, hempty none]
  rfl

/-- C10 (witness): a failed fetch yields no open positions and total
position value 0. -/
theorem C10_failure_returns_empty_witness :
    (∃ e, (Except.error "API request failed" : Except String AccountInfo) =
      Except.error e) ∧
    get_open_positions (Except.error "API request failed")
      (fun _ => Except.error "no price") none = [] ∧
    get_total_position_value (Except.error "API request failed")
      (fun _ => Except.error "no price") = 0 :=
  ⟨⟨"API request failed", rfl⟩,
   (C10_failure_returns_empty (Except.error "API request failed")
     (fun _ => Except.error "no price") none
     (Or.inl ⟨"API request failed", rfl⟩)).1,
   (C10_failure_returns_empty (Except.error "API request failed")
     (fun _ => Except.error "no price") none
     (Or.inl ⟨"API request failed", rfl⟩)).2.1⟩

end TradingBot
